import Mathlib

/-!
Verification of the Gift Planning Assistant core: a shallow embedding of
`tools/budget_calculator.py`, `tools/date_calculator.py` and
`memory/memory_manager.py`.

Modelling conventions:
* Python floats are modelled as exact rationals (`ℚ`); Python's built-in
  `round(x, n)` is modelled as banker's rounding on rationals (`pyRound`).
* Calendar dates are modelled as integer day ordinals; the format-by-format
  `strptime` loop in `_parse_date` is abstracted as an environment function
  `DateEnv.parseDate : String → Option ℤ` (`none` models a `ValueError`), and
  `datetime.now().date()` as `DateEnv.today : ℤ`.
* `uuid.uuid4()` is modelled as a fresh-identifier counter (`next_id`).
* Python dicts with insertion-order iteration are modelled as association
  lists in insertion order; `list.sort` (Timsort, stable) is modelled by
  `List.insertionSort` (also stable).
* A Python `try/except` returning `{'success': False, 'error': ...}` is
  modelled by an explicit failure branch at the spot where the exception
  (e.g. `ZeroDivisionError`) would be raised; every embedded function is
  total, which reflects that the original never propagates an exception.
* Human-readable `message` strings built by `%`-style float formatting are
  presentation-only and are not modelled.
-/

namespace GiftPlanning

/-- Banker's rounding of a rational to the nearest integer (ties to even),
mirroring Python's built-in `round`. -/
def roundHalfEven (q : ℚ) : ℤ :=
  let f := ⌊q⌋
  if q - f < 1/2 then f
  else if q - f > 1/2 then f + 1
  else if f % 2 = 0 then f else f + 1

/-- Python's `round(x, n)` for `n` decimal digits, on exact rationals. -/
def pyRound (q : ℚ) (n : ℕ) : ℚ :=
  (roundHalfEven (q * (10 : ℚ) ^ n) : ℚ) / (10 : ℚ) ^ n

/-! ## Budget calculator (`tools/budget_calculator.py`) -/

/-- An expense dict as consumed by `BudgetCalculatorTool`: the `amount` key is
optional, matching `expense.get('amount', 0)`. -/
structure PyExpense where
  amount : Option ℚ
deriving Repr, DecidableEq

/-- Sum of the amounts of a list of expense dicts, missing amounts read as 0
(`sum(expense.get('amount', 0) for expense in expenses)`). -/
def sumAmounts (expenses : List PyExpense) : ℚ :=
  (expenses.map (fun e => e.amount.getD 0)).sum

/-- Result of `BudgetCalculatorTool.calculate_budget_summary`. -/
structure BudgetSummary where
  success : Bool
  total_budget : ℚ
  total_spent : ℚ
  remaining : ℚ
  percentage_used : ℚ
  status : String
  alert_level : String
  expense_count : ℕ
deriving Repr, DecidableEq

/-- `BudgetCalculatorTool.calculate_budget_summary`. The body raises no
exception for numeric inputs, so the `except` branch is unreachable and
`success` is always `true`. -/
def calculate_budget_summary (total_budget : ℚ) (expenses : List PyExpense) :
    BudgetSummary :=
  let total_spent := sumAmounts expenses
  let remaining := total_budget - total_spent
  let percentage_used := if total_budget > 0 then total_spent / total_budget * 100 else 0
  let sa : String × String :=
    if percentage_used ≥ 100 then ("over_budget", "critical")
    else if percentage_used ≥ 90 then ("near_limit", "warning")
    else if percentage_used ≥ 75 then ("high_usage", "caution")
    else ("healthy", "normal")
  { success := true
    total_budget := total_budget
    total_spent := total_spent
    remaining := remaining
    percentage_used := pyRound percentage_used 1
    status := sa.1
    alert_level := sa.2
    expense_count := expenses.length }

/-- A recipient dict as consumed by `suggest_allocation`: both the `name` and
`priority` keys are optional (`'priority' in r`, `r.get('priority', 1)`,
`r.get('name', 'Unknown')`). -/
structure PyRecipient where
  name : Option String
  priority : Option ℚ
deriving Repr, DecidableEq

/-- One row of `suggest_allocation`'s `allocations` list. -/
structure AllocationRow where
  recipient : String
  suggested_amount : ℚ
  priority : ℚ
  percentage : ℚ
deriving Repr, DecidableEq

/-- Result of `BudgetCalculatorTool.suggest_allocation`. -/
structure AllocationResult where
  success : Bool
  allocation_method : Option String
  allocations : List AllocationRow
  error : Option String
deriving Repr, DecidableEq

/-- `sum(r.get('priority', 1) for r in recipients)`. -/
def totalPriority (recipients : List PyRecipient) : ℚ :=
  (recipients.map (fun r => r.priority.getD 1)).sum

/-- `BudgetCalculatorTool.suggest_allocation`. When the priorities sum to 0
the Python division `priority / total_priority` raises `ZeroDivisionError`,
caught by the `except` into a `success: False` result. -/
def suggest_allocation (total_budget : ℚ) (recipients : List PyRecipient) :
    AllocationResult :=
  if recipients = [] then
    { success := false, allocation_method := none, allocations := []
      error := some "No recipients provided" }
  else
    let num_recipients : ℚ := (recipients.length : ℚ)
    let has_priorities := recipients.any (fun r => r.priority.isSome)
    if has_priorities then
      let total_priority := totalPriority recipients
      if total_priority = 0 then
        { success := false, allocation_method := none, allocations := []
          error := some "division by zero" }
      else
        { success := true
          allocation_method := some "weighted"
          allocations := recipients.map (fun r =>
            let priority := r.priority.getD 1
            let weight := priority / total_priority
            { recipient := r.name.getD "Unknown"
              suggested_amount := pyRound (total_budget * weight) 2
              priority := priority
              percentage := pyRound (weight * 100) 1 })
          error := none }
    else
      { success := true
        allocation_method := some "equal"
        allocations := recipients.map (fun r =>
          { recipient := r.name.getD "Unknown"
            suggested_amount := pyRound (total_budget / num_recipients) 2
            priority := 1
            percentage := pyRound (100 / num_recipients) 1 })
        error := none }

/-- Result of `BudgetCalculatorTool.check_budget_limit`. The failure dict has
only `success` and `error`, so the other fields are optional. -/
structure CheckLimitResult where
  success : Bool
  within_budget : Option Bool
  status : Option String
  error : Option String
deriving Repr, DecidableEq

/-- `BudgetCalculatorTool.check_budget_limit` with `budget_range =
(min_budget, max_budget)`. In the `within_range` branch with
`max_budget == min_budget` the percentage-of-range division raises
`ZeroDivisionError`, caught by the `except` into a `success: False` result. -/
def check_budget_limit (item_cost min_budget max_budget : ℚ) : CheckLimitResult :=
  let within_budget := decide (min_budget ≤ item_cost ∧ item_cost ≤ max_budget)
  if item_cost < min_budget then
    { success := true, within_budget := some within_budget
      status := some "below_range", error := none }
  else if item_cost > max_budget then
    { success := true, within_budget := some within_budget
      status := some "above_range", error := none }
  else if max_budget - min_budget = 0 then
    { success := false, within_budget := none, status := none
      error := some "float division by zero" }
  else
    { success := true, within_budget := some within_budget
      status := some "within_range", error := none }

/-! ## Date calculator (`tools/date_calculator.py`) -/

/-- Abstraction of the date machinery: days are integer ordinals,
`parseDate` stands for `DateCalculatorTool._parse_date` (`none` models the
`ValueError` when no format matches) and `today` for
`datetime.now().date()`. -/
structure DateEnv where
  parseDate : String → Option ℤ
  today : ℤ

/-- The success payload of `DateCalculatorTool.calculate_days_until`. -/
structure DaysUntilResult where
  days_until : ℤ
  status : String
deriving Repr, DecidableEq

/-- `DateCalculatorTool.calculate_days_until`; `none` models the
`success: False` dict returned when `_parse_date` raises. -/
def calculate_days_until (env : DateEnv) (target_date_str : String) :
    Option DaysUntilResult :=
  match env.parseDate target_date_str with
  | none => none
  | some target =>
    let days_until := target - env.today
    let status :=
      if days_until < 0 then "past"
      else if days_until = 0 then "today"
      else if days_until ≤ 7 then "this_week"
      else if days_until ≤ 30 then "this_month"
      else "future"
    some { days_until := days_until, status := status }

/-! ## Memory manager (`memory/memory_manager.py`) -/

/-- One entry of a recipient's `gift_history`. -/
structure GiftEntry where
  occasion : String
  gift : String
  cost : ℚ
  date : Option String
deriving Repr, DecidableEq

/-- A stored recipient (timestamps omitted; they are wall-clock strings). -/
structure Recipient where
  name : String
  age : Option ℤ
  interests : List String
  relationship : Option String
  budget_range : Option (ℚ × ℚ)
  style : Option String
  gift_history : List GiftEntry
deriving Repr, DecidableEq

/-- A stored occasion. -/
structure Occasion where
  occasion_id : ℕ
  recipient_id : ℕ
  occasion_type : String
  date : String
  reminder_days_before : ℤ
  status : String
deriving Repr, DecidableEq

/-- A recorded budget expense (timestamp omitted). -/
structure Expense where
  recipient_id : ℕ
  recipient_name : String
  amount : ℚ
  description : String
deriving Repr, DecidableEq

/-- The session state owned by `MemoryManager`: the `recipients` and
`occasions` dicts as insertion-ordered association lists, the `budget` dict
flattened into `budget_total`/`budget_spent`/`expenses`, and the fresh-uuid
supply modelled as a counter. -/
structure MemState where
  recipients : List (ℕ × Recipient)
  occasions : List Occasion
  budget_total : ℚ
  budget_spent : ℚ
  expenses : List Expense
  next_id : ℕ
deriving Repr, DecidableEq

/-- The state `MemoryManager.__init__` builds for a fresh session. -/
def initState : MemState :=
  { recipients := [], occasions := [], budget_total := 0, budget_spent := 0
    expenses := [], next_id := 0 }

/-- `recipient_id in self.state['recipients']`. -/
def hasRecipient (s : MemState) (rid : ℕ) : Bool :=
  s.recipients.any (fun p => p.1 = rid)

/-- `MemoryManager.get_recipient`. -/
def getRecipient (s : MemState) (rid : ℕ) : Option Recipient :=
  (s.recipients.find? (fun p => p.1 = rid)).map (fun p => p.2)

/-- Result of `MemoryManager.add_recipient` (which never fails). -/
structure AddRecipientResult where
  success : Bool
  recipient_id : ℕ
deriving Repr, DecidableEq

/-- `MemoryManager.add_recipient`: no validation of `name` is performed; a
fresh id is drawn and the recipient stored unconditionally
(`interests or []` becomes `getD []`). -/
def add_recipient (s : MemState) (name : String) (age : Option ℤ)
    (interests : Option (List String)) (relationship : Option String)
    (budget_range : Option (ℚ × ℚ)) (style : Option String) :
    AddRecipientResult × MemState :=
  let rid := s.next_id
  let r : Recipient :=
    { name := name, age := age, interests := interests.getD []
      relationship := relationship, budget_range := budget_range
      style := style, gift_history := [] }
  (⟨true, rid⟩,
   { s with recipients := s.recipients ++ [(rid, r)], next_id := s.next_id + 1 })

/-- Generic success/error result for the fallible `MemoryManager` ops. -/
structure OpResult where
  success : Bool
  error : Option String
deriving Repr, DecidableEq

/-- `MemoryManager.update_recipient` restricted to its allow-list of fields;
an absent kwarg is `none`. -/
def update_recipient (s : MemState) (rid : ℕ) (name : Option String)
    (age : Option ℤ) (interests : Option (List String))
    (relationship : Option String) (budget_range : Option (ℚ × ℚ))
    (style : Option String) : OpResult × MemState :=
  if hasRecipient s rid then
    (⟨true, none⟩,
     { s with recipients := s.recipients.map (fun p =>
        if p.1 = rid then
          (p.1, { p.2 with
                  name := name.getD p.2.name
                  age := (age.map some).getD p.2.age
                  interests := interests.getD p.2.interests
                  relationship := (relationship.map some).getD p.2.relationship
                  budget_range := (budget_range.map some).getD p.2.budget_range
                  style := (style.map some).getD p.2.style })
        else p) })
  else
    (⟨false, some ("Recipient " ++ toString rid ++ " not found")⟩, s)

/-- `MemoryManager.add_gift_to_history`. -/
def add_gift_to_history (s : MemState) (rid : ℕ) (gift occasion : String)
    (cost : ℚ) (date : Option String) : OpResult × MemState :=
  if hasRecipient s rid then
    (⟨true, none⟩,
     { s with recipients := s.recipients.map (fun p =>
        if p.1 = rid then
          (p.1, { p.2 with gift_history :=
                    p.2.gift_history ++ [⟨occasion, gift, cost, date⟩] })
        else p) })
  else
    (⟨false, some ("Recipient " ++ toString rid ++ " not found")⟩, s)

/-- `MemoryManager.add_occasion`: fails without mutation when the recipient
id is absent, otherwise stores a new occasion with status `upcoming`. -/
def add_occasion (s : MemState) (rid : ℕ) (occasion_type date : String)
    (reminder_days_before : ℤ) : OpResult × MemState :=
  if hasRecipient s rid then
    let oid := s.next_id
    let occ : Occasion :=
      { occasion_id := oid, recipient_id := rid, occasion_type := occasion_type
        date := date, reminder_days_before := reminder_days_before
        status := "upcoming" }
    (⟨true, none⟩, { s with occasions := s.occasions ++ [occ], next_id := s.next_id + 1 })
  else
    (⟨false, some ("Recipient " ++ toString rid ++ " not found")⟩, s)

/-- `MemoryManager.mark_occasion_complete`. -/
def mark_occasion_complete (s : MemState) (oid : ℕ) : OpResult × MemState :=
  if s.occasions.any (fun o => o.occasion_id = oid) then
    (⟨true, none⟩,
     { s with occasions := s.occasions.map (fun o =>
        if o.occasion_id = oid then { o with status := "complete" } else o) })
  else
    (⟨false, some ("Occasion " ++ toString oid ++ " not found")⟩, s)

/-- `MemoryManager.set_total_budget`: overwrites `total` unconditionally. -/
def set_total_budget (s : MemState) (amount : ℚ) : OpResult × MemState :=
  (⟨true, none⟩, { s with budget_total := amount })

/-- `MemoryManager.add_expense`: fails without mutation when the recipient id
is absent; otherwise appends the expense and increments `spent`. -/
def add_expense (s : MemState) (rid : ℕ) (amount : ℚ) (description : String) :
    OpResult × MemState :=
  match getRecipient s rid with
  | none => (⟨false, some ("Recipient " ++ toString rid ++ " not found")⟩, s)
  | some r =>
    (⟨true, none⟩,
     { s with expenses := s.expenses ++ [⟨rid, r.name, amount, description⟩]
              budget_spent := s.budget_spent + amount })

/-- Result of `MemoryManager.get_budget_summary`. -/
structure MemBudgetSummary where
  total : ℚ
  spent : ℚ
  remaining : ℚ
  expense_count : ℕ
deriving Repr, DecidableEq

/-- `MemoryManager.get_budget_summary`. -/
def get_budget_summary (s : MemState) : MemBudgetSummary :=
  { total := s.budget_total, spent := s.budget_spent
    remaining := s.budget_total - s.budget_spent
    expense_count := s.expenses.length }

/-- One decorated entry of `get_upcoming_occasions`' result. -/
structure UpcomingEntry where
  occ : Occasion
  days_until : ℤ
  recipient_name : String
deriving Repr, DecidableEq

/-- Comparison used by the final `upcoming.sort(key=lambda x: x['days_until'])`. -/
def byDaysUntil (a b : UpcomingEntry) : Prop := a.days_until ≤ b.days_until

instance : DecidableRel byDaysUntil := fun a b => Int.decLe a.days_until b.days_until

instance : IsTotal UpcomingEntry byDaysUntil :=
  ⟨fun a b => Int.le_total a.days_until b.days_until⟩

instance : IsTrans UpcomingEntry byDaysUntil :=
  ⟨fun _ _ _ hab hbc => Int.le_trans hab hbc⟩

/-- One iteration of the loop in `MemoryManager.get_upcoming_occasions`:
skip occasions whose status is not `upcoming`; compute `days_until` via the
date calculator, dropping the entry silently on a parse failure
(`success: False`); keep it when `0 <= days_until <= days_ahead`, decorated
with the recipient name (`'Unknown'` when the lookup fails). -/
def upcomingEntryOf (env : DateEnv) (s : MemState) (days_ahead : ℤ)
    (occ : Occasion) : Option UpcomingEntry :=
  if occ.status ≠ "upcoming" then none
  else
    match calculate_days_until env occ.date with
    | none => none
    | some r =>
      if 0 ≤ r.days_until ∧ r.days_until ≤ days_ahead then
        some { occ := occ, days_until := r.days_until
               recipient_name :=
                 ((getRecipient s occ.recipient_id).map (fun x => x.name)).getD "Unknown" }
      else none

/-- The filtering loop of `MemoryManager.get_upcoming_occasions` over the
occasions dict in insertion order. -/
def collectUpcoming (env : DateEnv) (s : MemState) (days_ahead : ℤ) :
    List UpcomingEntry :=
  s.occasions.filterMap (upcomingEntryOf env s days_ahead)

/-- `MemoryManager.get_upcoming_occasions`: the filtering loop followed by a
stable sort on `days_until`. -/
def get_upcoming_occasions (env : DateEnv) (s : MemState) (days_ahead : ℤ) :
    List UpcomingEntry :=
  (collectUpcoming env s days_ahead).insertionSort byDaysUntil

/-- The mutating operations of `MemoryManager`, for stating whole-store
invariants over arbitrary call sequences. -/
inductive Op where
  | addRecipient (name : String) (age : Option ℤ) (interests : Option (List String))
      (relationship : Option String) (budget_range : Option (ℚ × ℚ))
      (style : Option String)
  | updateRecipient (rid : ℕ) (name : Option String) (age : Option ℤ)
      (interests : Option (List String)) (relationship : Option String)
      (budget_range : Option (ℚ × ℚ)) (style : Option String)
  | addGiftToHistory (rid : ℕ) (gift occasion : String) (cost : ℚ)
      (date : Option String)
  | addOccasion (rid : ℕ) (occasion_type date : String) (reminder_days_before : ℤ)
  | markOccasionComplete (oid : ℕ)
  | setTotalBudget (amount : ℚ)
  | addExpense (rid : ℕ) (amount : ℚ) (description : String)
deriving Repr, DecidableEq

/-- Apply one mutating operation to the store, discarding the result dict. -/
def applyOp (s : MemState) : Op → MemState
  | .addRecipient n a i r b st => (add_recipient s n a i r b st).2
  | .updateRecipient rid n a i r b st => (update_recipient s rid n a i r b st).2
  | .addGiftToHistory rid g o c d => (add_gift_to_history s rid g o c d).2
  | .addOccasion rid t d rem => (add_occasion s rid t d rem).2
  | .markOccasionComplete oid => (mark_occasion_complete s oid).2
  | .setTotalBudget amount => (set_total_budget s amount).2
  | .addExpense rid amount d => (add_expense s rid amount d).2

/-- Apply a sequence of mutating operations in order. -/
def applyOps (s : MemState) (ops : List Op) : MemState := ops.foldl applyOp s

/-- The budget bookkeeping invariant: the incrementally maintained `spent`
equals the sum recomputed from scratch over the expense log. -/
def spentInvariant (s : MemState) : Prop :=
  s.budget_spent = (s.expenses.map (fun e => e.amount)).sum

instance (s : MemState) : Decidable (spentInvariant s) := by
  unfold spentInvariant; infer_instance

/-! ## Spec-side reference definitions -/

/-- The spec's budget tier rule, written with its inclusive lower bounds:
`≥100 → over_budget/critical`, `≥90 → near_limit/warning`,
`≥75 → high_usage/caution`, else `healthy/normal`. -/
def specBudgetTier (p : ℚ) : String × String :=
  if 100 ≤ p then ("over_budget", "critical")
  else if 90 ≤ p then ("near_limit", "warning")
  else if 75 ≤ p then ("high_usage", "caution")
  else ("healthy", "normal")

/-- The spec's date status rule, written with its explicit ranges:
`<0 → past`, `0 → today`, `1..7 → this_week`, `8..30 → this_month`,
`>30 → future`. -/
def specDateStatus (n : ℤ) : String :=
  if n < 0 then "past"
  else if n = 0 then "today"
  else if 1 ≤ n ∧ n ≤ 7 then "this_week"
  else if 8 ≤ n ∧ n ≤ 30 then "this_month"
  else "future"

/-! ### Concrete sample data for witnesses -/

/-- A sample date environment: two known date strings, 30 and 31 days out. -/
def wDateEnv : DateEnv :=
  { parseDate := fun s =>
      if s = "2025-Jan-31" then some 30
      else if s = "2025-Feb-01" then some 31
      else none
    today := 0 }

/-- A sample recipient. -/
def wAlice : Recipient :=
  { name := "Alice", age := none, interests := [], relationship := none
    budget_range := none, style := none, gift_history := [] }

/-- A sample occasion 30 days out. -/
def wOcc30 : Occasion :=
  { occasion_id := 1, recipient_id := 0, occasion_type := "birthday"
    date := "2025-Jan-31", reminder_days_before := 14, status := "upcoming" }

/-- A sample occasion 31 days out. -/
def wOcc31 : Occasion :=
  { occasion_id := 2, recipient_id := 0, occasion_type := "birthday"
    date := "2025-Feb-01", reminder_days_before := 14, status := "upcoming" }

/-- A sample occasion whose date string does not parse. -/
def wOccBad : Occasion :=
  { occasion_id := 3, recipient_id := 0, occasion_type := "birthday"
    date := "soon", reminder_days_before := 14, status := "upcoming" }

/-- A sample store holding Alice and the three occasions above. -/
def wStore : MemState :=
  { recipients := [(0, wAlice)], occasions := [wOcc30, wOcc31, wOccBad]
    budget_total := 0, budget_spent := 0, expenses := [], next_id := 4 }

/-! ## Theorems -/

/-- C1: for every positive total budget and expense list, the status and
alert level returned by `calculate_budget_summary` are determined by
`percentageUsed = 100 * spent / total` through the spec's inclusive-lower-bound
tier rule. -/
theorem budget_status_matches_spec_tiers (total : ℚ) (expenses : List PyExpense)
    (h : 0 < total) :
    (calculate_budget_summary total expenses).status =
      (specBudgetTier (100 * sumAmounts expenses / total)).1 ∧
    (calculate_budget_summary total expenses).alert_level =
      (specBudgetTier (100 * sumAmounts expenses / total)).2 := by
  have hp : (if total > 0 then sumAmounts expenses / total * 100 else 0) =
      100 * sumAmounts expenses / total := by
    rw [if_pos h]; ring
  constructor <;>
    simp only [calculate_budget_summary, specBudgetTier, hp, ge_iff_le]

/-- C1 witness: the tier rule applied at total 200 with a single expense of
30 (15 percent used, hence healthy/normal). -/
theorem budget_status_matches_spec_tiers_witness :
    (calculate_budget_summary 200 [⟨some 30⟩]).status =
      (specBudgetTier (100 * sumAmounts [⟨some 30⟩] / 200)).1 ∧
    (calculate_budget_summary 200 [⟨some 30⟩]).alert_level =
      (specBudgetTier (100 * sumAmounts [⟨some 30⟩] / 200)).2 :=
  budget_status_matches_spec_tiers 200 [⟨some 30⟩] (by norm_num)

/-- C2 counterexample: with total 100 and expenses summing to exactly 75 the
code's inclusive `>= 75` branch fires, so the status is not `healthy` as the
claim asserts. -/
theorem budget_tier_spent75_not_healthy :
    ¬ (calculate_budget_summary 100 [⟨some 75⟩]).status = "healthy" := by
  have h : (calculate_budget_summary 100 [⟨some 75⟩]).status = "high_usage" := by
    norm_num [calculate_budget_summary, sumAmounts]
  rw [h]
  decide

/-- C2 amended: with total 100, expenses summing to 75 give `high_usage`
(not `healthy`: the 75 percent bound is inclusive); 75.01 gives `high_usage`;
90 gives `near_limit`; 100 gives `over_budget`; 120 gives `over_budget` with
remaining -20. -/
theorem budget_tier_boundaries :
    (calculate_budget_summary 100 [⟨some 75⟩]).status = "high_usage" ∧
    (calculate_budget_summary 100 [⟨some 75.01⟩]).status = "high_usage" ∧
    (calculate_budget_summary 100 [⟨some 90⟩]).status = "near_limit" ∧
    (calculate_budget_summary 100 [⟨some 100⟩]).status = "over_budget" ∧
    (calculate_budget_summary 100 [⟨some 120⟩]).status = "over_budget" ∧
    (calculate_budget_summary 100 [⟨some 120⟩]).remaining = -20 := by
  refine ⟨?_, ?_, ?_, ?_, ?_, ?_⟩ <;> norm_num [calculate_budget_summary, sumAmounts]

/-- C9: `calculate_budget_summary` with a zero total budget reports
`percentage_used = 0` (the guarded branch avoids the division), and the
operation is total: `success` is `true` for every numeric input, no exception
escapes. -/
theorem budget_summary_zero_total (total : ℚ) (expenses : List PyExpense) :
    (calculate_budget_summary 0 expenses).percentage_used = 0 ∧
    (calculate_budget_summary total expenses).success = true := by
  constructor
  · norm_num [calculate_budget_summary, pyRound, roundHalfEven]
  · simp [calculate_budget_summary]

/-- C10: `check_budget_limit` never propagates an exception: on a degenerate
range with min = max, a cost equal to the bound hits the in-range division by
zero and yields a structured `success: false` result, while a cost strictly
below or strictly above the bound still succeeds with status `below_range`
respectively `above_range`. -/
theorem check_limit_degenerate_range (m c : ℚ) :
    (check_budget_limit m m m).success = false ∧
    (c < m → (check_budget_limit c m m).success = true ∧
      (check_budget_limit c m m).status = some "below_range") ∧
    (m < c → (check_budget_limit c m m).success = true ∧
      (check_budget_limit c m m).status = some "above_range") := by
  refine ⟨?_, fun hlt => ?_, fun hgt => ?_⟩
  · simp [check_budget_limit]
  · rw [check_budget_limit, if_pos hlt]
    exact ⟨rfl, rfl⟩
  · have hnlt : ¬ c < m := not_lt.mpr hgt.le
    rw [check_budget_limit, if_neg hnlt, if_pos hgt]
    exact ⟨rfl, rfl⟩

/-- C10 witness: the degenerate range (2, 2) with costs 2, 1 and 3. -/
theorem check_limit_degenerate_range_witness :
    (check_budget_limit 2 2 2).success = false ∧
    ((check_budget_limit 1 2 2).success = true ∧
      (check_budget_limit 1 2 2).status = some "below_range") ∧
    ((check_budget_limit 3 2 2).success = true ∧
      (check_budget_limit 3 2 2).status = some "above_range") :=
  ⟨(check_limit_degenerate_range 2 1).1,
   (check_limit_degenerate_range 2 1).2.1 (by norm_num),
   (check_limit_degenerate_range 2 3).2.2 (by norm_num)⟩

/-- Helper: banker's rounding when the fractional part is below one half. -/
theorem roundHalfEven_of_frac_lt (q : ℚ) (z : ℤ) (hfl : ⌊q⌋ = z)
    (h : q - z < 1/2) : roundHalfEven q = z := by
  simp only [roundHalfEven, hfl]
  rw [if_pos h]

/-- Helper: banker's rounding when the fractional part is above one half. -/
theorem roundHalfEven_of_frac_gt (q : ℚ) (z : ℤ) (hfl : ⌊q⌋ = z)
    (h : 1/2 < q - z) : roundHalfEven q = z + 1 := by
  simp only [roundHalfEven, hfl]
  rw [if_neg (by linarith), if_pos h]

/-- Helper: `pyRound` fixes integers (here those needed below). -/
theorem pyRound_int (z : ℤ) : pyRound (z : ℚ) 2 = z := by
  unfold pyRound
  rw [roundHalfEven_of_frac_lt ((z : ℚ) * 10 ^ 2) (z * 100) (by
        rw [Int.floor_eq_iff]; push_cast; constructor <;> norm_num
      ) (by push_cast; ring_nf; norm_num)]
  push_cast
  ring

/-- Helper: `round(200/3, 1) = 66.7`. -/
theorem pyRound_two_thirds_pct : pyRound (200/3) 1 = 66.7 := by
  unfold pyRound
  have h : (200 : ℚ)/3 * 10 ^ 1 = 2000/3 := by norm_num
  rw [h, roundHalfEven_of_frac_gt (2000/3) 666 (by
        rw [Int.floor_eq_iff]; norm_num) (by norm_num)]
  norm_num

/-- Helper: `round(100/3, 1) = 33.3`. -/
theorem pyRound_one_third_pct : pyRound (100/3) 1 = 33.3 := by
  unfold pyRound
  have h : (100 : ℚ)/3 * 10 ^ 1 = 1000/3 := by norm_num
  rw [h, roundHalfEven_of_frac_lt (1000/3) 333 (by
        rw [Int.floor_eq_iff]; norm_num) (by norm_num)]
  norm_num

/-- Helper: `suggest_allocation` on a nonempty list with no priority keys
produces the equal-split rows. -/
theorem suggest_allocation_equal_rows (t : ℚ) (rs : List PyRecipient)
    (hne : rs ≠ []) (hp : rs.any (fun r => r.priority.isSome) = false) :
    (suggest_allocation t rs).allocations = rs.map (fun r =>
      { recipient := r.name.getD "Unknown"
        suggested_amount := pyRound (t / (rs.length : ℚ)) 2
        priority := 1
        percentage := pyRound (100 / (rs.length : ℚ)) 1 }) := by
  simp only [suggest_allocation, if_neg hne, hp, Bool.false_eq_true, if_false]

/-- Helper: `suggest_allocation` on a nonempty list with at least one
priority key and a nonzero priority sum produces the weighted rows. -/
theorem suggest_allocation_weighted_rows (t : ℚ) (rs : List PyRecipient)
    (hne : rs ≠ []) (hp : rs.any (fun r => r.priority.isSome) = true)
    (h0 : totalPriority rs ≠ 0) :
    (suggest_allocation t rs).allocations = rs.map (fun r =>
      { recipient := r.name.getD "Unknown"
        suggested_amount := pyRound (t * (r.priority.getD 1 / totalPriority rs)) 2
        priority := r.priority.getD 1
        percentage := pyRound (r.priority.getD 1 / totalPriority rs * 100) 1 }) := by
  simp only [suggest_allocation, if_neg hne, hp, if_true, if_neg h0]

/-- C7: `suggest_allocation` fails on an empty recipient list; with no
priority keys it splits equally (on 300 across A, B, C each row gets 100.0
and 33.3 percent); with any explicit priority each share is
`priority_i / Σ priority` with missing priorities defaulting to 1 (on 300
across A with priority 2 and B with priority 1, A gets 200.0 at 66.7 percent
and B gets 100.0 at 33.3 percent). -/
theorem suggest_allocation_spec (t : ℚ) (rs : List PyRecipient)
    (hne : rs ≠ []) :
    (suggest_allocation t []).success = false ∧
    (rs.any (fun r => r.priority.isSome) = false →
      (suggest_allocation t rs).allocations = rs.map (fun r =>
        { recipient := r.name.getD "Unknown"
          suggested_amount := pyRound (t / (rs.length : ℚ)) 2
          priority := 1
          percentage := pyRound (100 / (rs.length : ℚ)) 1 })) ∧
    (rs.any (fun r => r.priority.isSome) = true → totalPriority rs ≠ 0 →
      (suggest_allocation t rs).allocations = rs.map (fun r =>
        { recipient := r.name.getD "Unknown"
          suggested_amount := pyRound (t * (r.priority.getD 1 / totalPriority rs)) 2
          priority := r.priority.getD 1
          percentage := pyRound (r.priority.getD 1 / totalPriority rs * 100) 1 })) ∧
    (suggest_allocation 300 [⟨some "A", none⟩, ⟨some "B", none⟩, ⟨some "C", none⟩]).allocations =
      [⟨"A", 100, 1, 33.3⟩, ⟨"B", 100, 1, 33.3⟩, ⟨"C", 100, 1, 33.3⟩] ∧
    (suggest_allocation 300 [⟨some "A", some 2⟩, ⟨some "B", some 1⟩]).allocations =
      [⟨"A", 200, 2, 66.7⟩, ⟨"B", 100, 1, 33.3⟩] := by
  refine ⟨by simp [suggest_allocation], suggest_allocation_equal_rows t rs hne,
    suggest_allocation_weighted_rows t rs hne, ?_, ?_⟩
  · rw [suggest_allocation_equal_rows 300 _ (by simp) (by simp)]
    have h1 : (300 : ℚ) / (([⟨some "A", none⟩, ⟨some "B", none⟩,
        ⟨some "C", none⟩] : List PyRecipient).length : ℚ) = ((100 : ℤ) : ℚ) := by
      norm_num
    have h2 : (100 : ℚ) / (([⟨some "A", none⟩, ⟨some "B", none⟩,
        ⟨some "C", none⟩] : List PyRecipient).length : ℚ) = 100/3 := by
      norm_num
    simp only [List.map, h1, h2, pyRound_int, pyRound_one_third_pct]
    norm_num
  · have htp : totalPriority [⟨some "A", some 2⟩, ⟨some "B", some 1⟩] = 3 := by
      norm_num [totalPriority]
    rw [suggest_allocation_weighted_rows 300 _ (by simp) (by simp)
      (by rw [htp]; norm_num)]
    simp only [List.map, htp, Option.getD_some]
    have e1 : (300 : ℚ) * ((2 : ℚ) / 3) = ((200 : ℤ) : ℚ) := by norm_num
    have e2 : (2 : ℚ) / 3 * 100 = 200/3 := by norm_num
    have e3 : (300 : ℚ) * ((1 : ℚ) / 3) = ((100 : ℤ) : ℚ) := by norm_num
    have e4 : (1 : ℚ) / 3 * 100 = 100/3 := by norm_num
    rw [e1, e2, e3, e4, pyRound_int, pyRound_int, pyRound_two_thirds_pct,
      pyRound_one_third_pct]
    norm_num

/-- C7 witness: the general clauses applied to the one-element list
containing only B with priority 1. -/
theorem suggest_allocation_spec_witness :
    ((suggest_allocation 300 []).success = false ∧
      (suggest_allocation 50 [⟨some "B", some 1⟩]).allocations =
        ([⟨some "B", some 1⟩] : List PyRecipient).map (fun r =>
          { recipient := r.name.getD "Unknown"
            suggested_amount :=
              pyRound (50 * (r.priority.getD 1 / totalPriority [⟨some "B", some 1⟩])) 2
            priority := r.priority.getD 1
            percentage :=
              pyRound (r.priority.getD 1 / totalPriority [⟨some "B", some 1⟩] * 100) 1 })) ∧
    (suggest_allocation 50 [⟨some "C", none⟩]).allocations =
      ([⟨some "C", none⟩] : List PyRecipient).map (fun r =>
        { recipient := r.name.getD "Unknown"
          suggested_amount := pyRound (50 / (([⟨some "C", none⟩] : List PyRecipient).length : ℚ)) 2
          priority := 1
          percentage := pyRound (100 / (([⟨some "C", none⟩] : List PyRecipient).length : ℚ)) 1 }) :=
  ⟨⟨(suggest_allocation_spec 300 [⟨some "B", some 1⟩] (by simp)).1,
    (suggest_allocation_spec 50 [⟨some "B", some 1⟩] (by simp)).2.2.1 (by simp)
      (by norm_num [totalPriority])⟩,
   (suggest_allocation_spec 50 [⟨some "C", none⟩] (by simp)).2.1 (by simp)⟩

/-- Helper: the code's status cascade on a day difference agrees with the
spec's explicit ranges. -/
theorem dateStatus_cascade (n : ℤ) :
    (if n < 0 then "past"
     else if n = 0 then "today"
     else if n ≤ 7 then "this_week"
     else if n ≤ 30 then "this_month"
     else "future") = specDateStatus n := by
  unfold specDateStatus
  split_ifs <;> first | rfl | omega

/-- C8: for every parseable date string, `calculate_days_until` succeeds and
its status is determined solely by the integer day difference through the
spec's ranges: `<0 → past`, `0 → today`, `1..7 → this_week`,
`8..30 → this_month`, `>30 → future`. -/
theorem days_until_status_spec (env : DateEnv) (s : String) (d : ℤ)
    (h : env.parseDate s = some d) :
    calculate_days_until env s =
      some ⟨d - env.today, specDateStatus (d - env.today)⟩ := by
  unfold calculate_days_until
  rw [h]
  simp only [dateStatus_cascade]

/-- C8 witness: an environment whose parse function maps one string to day
17 with today at day 10 (seven days out, hence this_week). -/
theorem days_until_status_spec_witness :
    calculate_days_until
      ⟨fun s => if s = "2025-01-01" then some 17 else none, 10⟩ "2025-01-01" =
      some ⟨7, specDateStatus 7⟩ := by
  have h := days_until_status_spec
    ⟨fun s => if s = "2025-01-01" then some 17 else none, 10⟩ "2025-01-01" 17
    (by decide)
  norm_num at h
  exact h

/-- C3 counterexample: `add_recipient` called with an empty name on a fresh
store succeeds and stores the recipient, instead of failing with a
validation error as claimed. -/
theorem add_recipient_empty_name_succeeds :
    (add_recipient initState "" none none none none none).1.success = true ∧
    (add_recipient initState "" none none none none none).2.recipients.length = 1 := by
  constructor <;> rfl

/-- C3 amended: `add_recipient` performs no name validation at all: for every
store state and every name, the empty string included, it succeeds, appends
exactly the one new recipient entry, and (given every stored id is below the
fresh-id counter) the generated identifier is fresh. -/
theorem add_recipient_no_validation (s : MemState) (name : String)
    (age : Option ℤ) (interests : Option (List String))
    (relationship : Option String) (budget_range : Option (ℚ × ℚ))
    (style : Option String)
    (hfresh : ∀ p ∈ s.recipients, p.1 < s.next_id) :
    (add_recipient s name age interests relationship budget_range style).1.success = true ∧
    (add_recipient s name age interests relationship budget_range style).1.recipient_id ∉
      s.recipients.map Prod.fst ∧
    (add_recipient s name age interests relationship budget_range style).2.recipients =
      s.recipients ++
        [((add_recipient s name age interests relationship budget_range style).1.recipient_id,
          { name := name, age := age, interests := interests.getD []
            relationship := relationship, budget_range := budget_range
            style := style, gift_history := [] })] := by
  refine ⟨rfl, ?_, rfl⟩
  intro hmem
  simp only [add_recipient, List.mem_map] at hmem
  obtain ⟨p, hp, hid⟩ := hmem
  have := hfresh p hp
  omega

/-- C3 amended witness: adding an empty-named recipient to a fresh store. -/
theorem add_recipient_no_validation_witness :
    (add_recipient initState "" none none none none none).1.success = true ∧
    (add_recipient initState "" none none none none none).1.recipient_id ∉
      initState.recipients.map Prod.fst ∧
    (add_recipient initState "" none none none none none).2.recipients =
      initState.recipients ++
        [((add_recipient initState "" none none none none none).1.recipient_id,
          { name := "", age := none, interests := (none : Option (List String)).getD []
            relationship := none, budget_range := none
            style := none, gift_history := [] })] :=
  add_recipient_no_validation initState "" none none none none none
    (by intro p hp; exact absurd hp (List.not_mem_nil p))

/-- C6: `add_occasion` with a recipient id absent from the store fails with
the not-found error message and leaves the entire store state unchanged. -/
theorem add_occasion_missing_recipient (s : MemState) (rid : ℕ)
    (occasion_type date : String) (reminder_days_before : ℤ)
    (h : hasRecipient s rid = false) :
    (add_occasion s rid occasion_type date reminder_days_before).1.success = false ∧
    (add_occasion s rid occasion_type date reminder_days_before).1.error =
      some ("Recipient " ++ toString rid ++ " not found") ∧
    (add_occasion s rid occasion_type date reminder_days_before).2 = s := by
  unfold add_occasion
  rw [h]
  exact ⟨rfl, rfl, rfl⟩

/-- C6 witness: adding a birthday for unknown recipient 7 on a fresh store. -/
theorem add_occasion_missing_recipient_witness :
    (add_occasion initState 7 "birthday" "2025-03-01" 14).1.success = false ∧
    (add_occasion initState 7 "birthday" "2025-03-01" 14).1.error =
      some ("Recipient " ++ toString 7 ++ " not found") ∧
    (add_occasion initState 7 "birthday" "2025-03-01" 14).2 = initState :=
  add_occasion_missing_recipient initState 7 "birthday" "2025-03-01" 14 rfl

/-- Helper: every single mutating operation preserves the budget
bookkeeping invariant. -/
theorem spentInvariant_applyOp (s : MemState) (op : Op)
    (h : spentInvariant s) : spentInvariant (applyOp s op) := by
  cases op with
  | addRecipient n a i r b st =>
    simpa only [applyOp, add_recipient, spentInvariant] using h
  | updateRecipient rid n a i r b st =>
    cases hc : hasRecipient s rid <;>
      simpa [applyOp, update_recipient, hc, spentInvariant] using h
  | addGiftToHistory rid g o c d =>
    cases hc : hasRecipient s rid <;>
      simpa [applyOp, add_gift_to_history, hc, spentInvariant] using h
  | addOccasion rid t d rem =>
    cases hc : hasRecipient s rid <;>
      simpa [applyOp, add_occasion, hc, spentInvariant] using h
  | markOccasionComplete oid =>
    cases hc : s.occasions.any (fun o => o.occasion_id = oid) <;>
      simpa [applyOp, mark_occasion_complete, hc, spentInvariant] using h
  | setTotalBudget amount =>
    simpa only [applyOp, set_total_budget, spentInvariant] using h
  | addExpense rid amount d =>
    unfold applyOp add_expense
    cases hg : getRecipient s rid with
    | none => simp only [hg]; simpa only [spentInvariant] using h
    | some r =>
      simp only [hg]
      unfold spentInvariant at h ⊢
      simp only [List.map_append, List.sum_append, List.map_cons, List.map_nil,
        List.sum_cons, List.sum_nil]
      rw [h]
      ring

/-- C4: the budget's `spent` field always equals the sum of the amounts in
the expense log: it holds on the fresh store, is preserved by every mutating
operation, and hence holds after every sequence of operations (in particular
after any number of `add_expense` calls). -/
theorem spent_matches_expense_log (s : MemState) (op : Op) (ops : List Op)
    (h : spentInvariant s) :
    spentInvariant initState ∧
    spentInvariant (applyOp s op) ∧
    spentInvariant (applyOps s ops) := by
  refine ⟨by simp [spentInvariant, initState], spentInvariant_applyOp s op h, ?_⟩
  unfold applyOps
  induction ops generalizing s with
  | nil => exact h
  | cons o os ih => exact ih _ (spentInvariant_applyOp s o h)

/-- C4 witness: a fresh store, one budget mutation, and a concrete run that
adds a recipient, sets a budget and records an expense. -/
theorem spent_matches_expense_log_witness :
    spentInvariant initState ∧
    spentInvariant (applyOp initState (Op.setTotalBudget 500)) ∧
    spentInvariant (applyOps initState
      [Op.addRecipient "Dana" none none none none none,
       Op.setTotalBudget 500,
       Op.addExpense 0 25 "book",
       Op.addExpense 0 30 "game"]) :=
  spent_matches_expense_log initState (Op.setTotalBudget 500)
    [Op.addRecipient "Dana" none none none none none,
     Op.setTotalBudget 500,
     Op.addExpense 0 25 "book",
     Op.addExpense 0 30 "game"]
    (by simp [spentInvariant, initState])

/-- Helper: characterization of one iteration of the upcoming-occasions
loop. -/
theorem upcomingEntryOf_eq_some (env : DateEnv) (s : MemState)
    (days_ahead : ℤ) (occ : Occasion) (e : UpcomingEntry) :
    upcomingEntryOf env s days_ahead occ = some e ↔
      (occ.status = "upcoming" ∧
       ∃ r : DaysUntilResult, calculate_days_until env occ.date = some r ∧
         0 ≤ r.days_until ∧ r.days_until ≤ days_ahead ∧
         e = ⟨occ, r.days_until,
           ((getRecipient s occ.recipient_id).map (fun x => x.name)).getD "Unknown"⟩) := by
  unfold upcomingEntryOf
  by_cases hst : occ.status = "upcoming"
  · rw [if_neg (by simp [hst])]
    rcases hcm : calculate_days_until env occ.date with - | r
    · simp [hcm]
    · simp only [hcm]
      by_cases hb : 0 ≤ r.days_until ∧ r.days_until ≤ days_ahead
      · rw [if_pos hb, Option.some_inj]
        constructor
        · rintro rfl
          exact ⟨hst, r, rfl, hb.1, hb.2, rfl⟩
        · rintro ⟨-, r', hr', _, _, rfl⟩
          rw [Option.some_inj] at hr'
          rw [hr']
      · rw [if_neg hb]
        refine ⟨fun hfalse => Option.noConfusion hfalse, fun hrhs => ?_⟩
        obtain ⟨-, r', hr', h0, hd, -⟩ := hrhs
        rw [Option.some_inj] at hr'
        subst hr'
        exact ((hb ⟨h0, hd⟩).elim : _)
  · simp [hst]

/-- Helper: membership in the filtered (unsorted) upcoming list. -/
theorem mem_collectUpcoming (env : DateEnv) (s : MemState) (days_ahead : ℤ)
    (e : UpcomingEntry) :
    e ∈ collectUpcoming env s days_ahead ↔
      (e.occ ∈ s.occasions ∧ e.occ.status = "upcoming" ∧
       ∃ r : DaysUntilResult, calculate_days_until env e.occ.date = some r ∧
         0 ≤ r.days_until ∧ r.days_until ≤ days_ahead ∧
         e.days_until = r.days_until ∧
         e.recipient_name =
           ((getRecipient s e.occ.recipient_id).map (fun x => x.name)).getD "Unknown") := by
  unfold collectUpcoming
  rw [List.mem_filterMap]
  constructor
  · rintro ⟨occ, hocc, hf⟩
    rw [upcomingEntryOf_eq_some] at hf
    obtain ⟨hst, r, hr, h0, hd, rfl⟩ := hf
    exact ⟨hocc, hst, r, hr, h0, hd, rfl, rfl⟩
  · rintro ⟨hmem, hst, r, hr, h0, hd, hdu, hname⟩
    refine ⟨e.occ, hmem, ?_⟩
    rw [upcomingEntryOf_eq_some]
    refine ⟨hst, r, hr, h0, hd, ?_⟩
    cases e with
    | mk o du n =>
      rw [show (UpcomingEntry.mk o du n).days_until = du from rfl] at hdu
      rw [show (UpcomingEntry.mk o du n).recipient_name = n from rfl] at hname
      rw [hdu, hname]

/-- C5: `get_upcoming_occasions` returns, as a multiset, exactly the filtered
loop output; an entry is in the result precisely when its occasion is stored
with status `upcoming` and its date parses to a day offset in
`[0, days_ahead]` (so exactly `days_ahead` days out is included and
`days_ahead + 1` is excluded); the result is sorted ascending by
`days_until`; and an occasion whose date fails to parse never contributes an
entry — the failure is swallowed, not surfaced. -/
theorem upcoming_occasions_spec (env : DateEnv) (s : MemState)
    (days_ahead : ℤ) :
    List.Sorted byDaysUntil (get_upcoming_occasions env s days_ahead) ∧
    (get_upcoming_occasions env s days_ahead).Perm
      (collectUpcoming env s days_ahead) ∧
    (∀ e : UpcomingEntry, e ∈ get_upcoming_occasions env s days_ahead ↔
      (e.occ ∈ s.occasions ∧ e.occ.status = "upcoming" ∧
       ∃ r : DaysUntilResult, calculate_days_until env e.occ.date = some r ∧
         0 ≤ r.days_until ∧ r.days_until ≤ days_ahead ∧
         e.days_until = r.days_until ∧
         e.recipient_name =
           ((getRecipient s e.occ.recipient_id).map (fun x => x.name)).getD "Unknown")) ∧
    (∀ occ ∈ s.occasions, calculate_days_until env occ.date = none →
      ∀ e ∈ get_upcoming_occasions env s days_ahead, e.occ ≠ occ) := by
  have hmem : ∀ e : UpcomingEntry,
      e ∈ get_upcoming_occasions env s days_ahead ↔
        e ∈ collectUpcoming env s days_ahead := by
    intro e
    unfold get_upcoming_occasions
    exact List.mem_insertionSort byDaysUntil
  refine ⟨?_, ?_, ?_, ?_⟩
  · exact List.sorted_insertionSort byDaysUntil _
  · exact List.perm_insertionSort byDaysUntil _
  · intro e
    rw [hmem]
    exact mem_collectUpcoming env s days_ahead e
  · intro occ _ hnone e he heq
    obtain ⟨-, -, r, hr, -⟩ :=
      (mem_collectUpcoming env s days_ahead e).mp ((hmem e).mp he)
    rw [heq, hnone] at hr
    exact Option.noConfusion hr

/-- C5 witness: on the sample store with window 30, the 30-days-out occasion
is a member of the (sorted) result and the unparseable occasion contributes
no entry. -/
theorem upcoming_occasions_spec_witness :
    List.Sorted byDaysUntil (get_upcoming_occasions wDateEnv wStore 30) ∧
    (⟨wOcc30, 30, "Alice"⟩ : UpcomingEntry) ∈
      get_upcoming_occasions wDateEnv wStore 30 ∧
    (∀ e ∈ get_upcoming_occasions wDateEnv wStore 30, e.occ ≠ wOccBad) :=
  ⟨(upcoming_occasions_spec wDateEnv wStore 30).1,
   ((upcoming_occasions_spec wDateEnv wStore 30).2.2.1 ⟨wOcc30, 30, "Alice"⟩).mpr
     ⟨by decide, by decide, ⟨30, "this_month"⟩, by decide, by decide, by decide,
      by decide, by decide⟩,
   (upcoming_occasions_spec wDateEnv wStore 30).2.2.2 wOccBad (by decide)
     (by decide)⟩

end GiftPlanning
